import Mathlib

/-!
Shallow embedding of the Smartdose smart-socket firmware's Modbus register
layer and its auxiliary state machines (src/src/main.cpp, src/src/RingBuf.h).

The embedding models the full-featured build (DEVICETYPE = GOSUND_SP1, so
HASPOWERMETER = 1, together with TIMERS = 1 and EVENT_TRACKING = 1, which
force MODBUS_SERVER = 1): this is the configuration in which every claimed
register exists.  Machine integers are modelled as ℕ with explicit masks and
moduli at the points where the C++ code truncates; the measured current fed
to the auto-off check is modelled as ℚ (the C++ double enters only through
the comparison `measured < aoAmps / 1000.0`).  The EEPROM regions touched by
the handlers are carried in the state (`eepromFlags`, `eepromTimerBytes`,
`eepromAoAmps`, `eepromAoCycles`); GPIO writes, telnet logging and the
wall-clock timestamps baked into event records are external I/O and appear
as explicit inputs where they matter.
-/

namespace Smartdose

/-- Number of timer slots (NUM_TIMERS in main.cpp). -/
def NUM_TIMERS : ℕ := 16

/-- Number of event slots (MAXEVENT in main.cpp). -/
def MAXEVENT : ℕ := 40

/-- Highest addressable Modbus register:
8 basic + 14 power + 2 per timer + 1 event-count + MAXEVENT events + 2 auto-off. -/
def MAXWORD : ℕ := 22 + NUM_TIMERS * 2 + MAXEVENT + 1 + 2

/-- Bit 7 of activeDays: timer is active. -/
def ACTIVEMASK : ℕ := 0x80

/-- Bit 0 of onOff: timer switches on. -/
def ONMASK : ℕ := 0x01

/-- Mask of the runtime-toggleable configuration flags (CONF_MASK). -/
def CONF_MASK : ℕ := 0x0001

/-- Flag bit: device has a power meter. -/
def CONF_HAS_POWER : ℕ := 0x8000

/-- Flag bit: device has a Modbus server. -/
def CONF_HAS_MODBUS : ℕ := 0x2000

/-- Flag bit: device has timers. -/
def CONF_TIMERS : ℕ := 0x0800

/-- One timer slot (struct Timer_t). -/
structure Timer_t where
  activeDays : ℕ
  onOff : ℕ
  hour : ℕ
  minute : ℕ
  deriving DecidableEq

instance : Inhabited Timer_t := ⟨⟨0, 0, 0, 0⟩⟩

/-- TimeCount: elapsed-tick counter with a fixed sampling interval. -/
structure TimeCount where
  interval : ℕ
  counter : ℕ
  ticksPerHour : ℕ
  ticksPerMinute : ℕ
  deriving DecidableEq

/-- `TimeCount::getHour` — `(uint16_t)(counter_ / ticksPerHour_)`. -/
def TimeCount.getHour (t : TimeCount) : ℕ :=
  if t.interval ≠ 0 then (t.counter / t.ticksPerHour) % 65536 else 0

/-- `TimeCount::getMinute` — `(uint8_t)((counter_ / ticksPerMinute_) % 60)`. -/
def TimeCount.getMinute (t : TimeCount) : ℕ :=
  if t.interval ≠ 0 then (t.counter / t.ticksPerMinute) % 60 else 0

/-- `TimeCount::getSecond` — `(uint8_t)(((counter_ * interval_) / 1000) % 60)`. -/
def TimeCount.getSecond (t : TimeCount) : ℕ :=
  if t.interval ≠ 0 then (t.counter * t.interval / 1000) % 60 else 0

/-- `TimeCount::reset` — zero the tick counter. -/
def TimeCount.reset (t : TimeCount) : TimeCount :=
  { t with counter := 0 }

/-- The firmware's mutable state, as touched by the Modbus handlers and the
polling loop.  `meterBytes` carries the 28 raw bytes of the seven float32
values FC03 packs for registers 9..22 (their IEEE-754 construction from the
sampled doubles is outside the embedding; only the bytes flow into responses).
The `eeprom*` fields are the EEPROM cells the handlers persist into:
`eepromTimerBytes` is the 64-byte region at offset O_TIMERS, 4 bytes per
timer slot. -/
structure DeviceState where
  testschalter : Bool
  dimValue : ℕ
  showFlags : ℕ
  configFlags : ℕ
  upTime : TimeCount
  stateTime : TimeCount
  onTime : TimeCount
  meterBytes : List ℕ
  timers : List Timer_t
  events : List ℕ
  aoAmps : ℕ
  aoCycles : ℕ
  aoCount : ℕ
  accumulatedWatts : ℚ
  eepromFlags : ℕ
  eepromTimerBytes : List ℕ
  eepromAoAmps : ℕ
  eepromAoCycles : ℕ
  deriving DecidableEq

/-- Modbus error kinds surfaced by the embedded handlers. -/
inductive ModbusError where
  | ILLEGAL_DATA_ADDRESS
  | ILLEGAL_DATA_VALUE
  deriving DecidableEq

instance {ε α : Type} [DecidableEq ε] [DecidableEq α] : DecidableEq (Except ε α) :=
  fun a b =>
    match a, b with
    | Except.ok x, Except.ok y =>
        if h : x = y then Decidable.isTrue (by rw [h]) else
          Decidable.isFalse (by intro hc; injection hc; exact h (by assumption))
    | Except.ok _, Except.error _ => Decidable.isFalse (by intro hc; injection hc)
    | Except.error _, Except.ok _ => Decidable.isFalse (by intro hc; injection hc)
    | Except.error x, Except.error y =>
        if h : x = y then Decidable.isTrue (by rw [h]) else
          Decidable.isFalse (by intro hc; injection hc; exact h (by assumption))

/-- High byte of a 16-bit word as sent on the wire. -/
def hiByte (w : ℕ) : ℕ := w / 256 % 256

/-- Low byte of a 16-bit word as sent on the wire. -/
def loByte (w : ℕ) : ℕ := w % 256

/-- Big-endian byte pair of a 16-bit word (`ModbusMessage::add(uint16_t)`). -/
def word16Bytes (w : ℕ) : List ℕ := [hiByte w, loByte w]

/-- `SetState` — switch the socket, reset the state-duration counter, record
the dim value.  GPIO writes are external I/O and not part of the state. -/
def SetState (s : DeviceState) (state : Bool) (value : ℕ) : DeviceState :=
  { s with testschalter := state
           stateTime := s.stateTime.reset
           dimValue := value % 256 }

/-- The two bytes FC03 appends for one register address (the body of the
switch statement over `addr` in `FC03`, full-featured build). -/
def fc03RegBytes (s : DeviceState) (addr : ℕ) : List ℕ :=
  if addr = 1 then word16Bytes (if s.testschalter then s.dimValue else 0)
  else if addr = 2 then word16Bytes s.showFlags
  else if addr = 3 then word16Bytes s.upTime.getHour
  else if addr = 4 then [s.upTime.getMinute, s.upTime.getSecond]
  else if addr = 5 then word16Bytes s.stateTime.getHour
  else if addr = 6 then [s.stateTime.getMinute, s.stateTime.getSecond]
  else if addr = 7 then word16Bytes s.onTime.getHour
  else if addr = 8 then [s.onTime.getMinute, s.onTime.getSecond]
  else if 9 ≤ addr ∧ addr ≤ 22 then
    [s.meterBytes.getD ((addr - 9) * 2) 0, s.meterBytes.getD ((addr - 9) * 2 + 1) 0]
  else if 23 ≤ addr ∧ addr ≤ 23 + NUM_TIMERS * 2 - 1 then
    let tim := (addr - 23) / 2
    if addr % 2 = 1 then
      [(s.timers.getD tim default).activeDays, (s.timers.getD tim default).onOff]
    else
      [(s.timers.getD tim default).hour, (s.timers.getD tim default).minute]
  else if addr = 23 + NUM_TIMERS * 2 then word16Bytes MAXEVENT
  else if 23 + NUM_TIMERS * 2 + 1 ≤ addr ∧ addr ≤ MAXWORD - 2 then
    word16Bytes (s.events.getD (addr - (23 + NUM_TIMERS * 2 + 1)) 0)
  else if addr = MAXWORD - 1 then word16Bytes s.aoAmps
  else if addr = MAXWORD then word16Bytes s.aoCycles
  else []

/-- The FC03 register loop: bytes for `words` consecutive registers starting
at address `a`. -/
def fc03Data (s : DeviceState) : ℕ → ℕ → List ℕ
  | _, 0 => []
  | a, w + 1 => fc03RegBytes s a ++ fc03Data s (a + 1) w

/-- FC03, the read-holding-registers handler: validation exactly as in the
code (`address && words && ((address + words - 1) <= MAXWORD) && (words < 126)`),
then the data payload (the bytes following the serverID/functionCode/byteCount
header) or an ILLEGAL_DATA_ADDRESS exception. -/
def FC03 (s : DeviceState) (address words : ℕ) : Except ModbusError (List ℕ) :=
  if address ≠ 0 ∧ words ≠ 0 ∧ address + words - 1 ≤ MAXWORD ∧ words < 126 then
    Except.ok (fc03Data s address words)
  else
    Except.error ModbusError.ILLEGAL_DATA_ADDRESS

lemma maxword_eq : MAXWORD = 97 := rfl

set_option maxHeartbeats 2000000 in
lemma fc03RegBytes_length (s : DeviceState) (a : ℕ) (h1 : 1 ≤ a) (h2 : a ≤ MAXWORD) :
    (fc03RegBytes s a).length = 2 := by
  rw [maxword_eq] at h2
  interval_cases a <;> rfl

lemma fc03Data_length (s : DeviceState) (w : ℕ) :
    ∀ a, 1 ≤ a → a + w - 1 ≤ MAXWORD → (fc03Data s a w).length = 2 * w := by
  induction w with
  | zero => intro a _ _; rfl
  | succ n ih =>
      intro a h1 h2
      have ha : a ≤ MAXWORD := by rw [maxword_eq] at h2 ⊢; omega
      have hrec : (fc03Data s (a + 1) n).length = 2 * n := by
        apply ih (a + 1) (by omega)
        rw [maxword_eq] at h2 ⊢; omega
      simp only [fc03Data, List.length_append, fc03RegBytes_length s a h1 ha, hrec]
      omega

/-- FC06, the write-single-holding-register handler.  `Except.ok ()` stands
for the ECHO_RESPONSE acknowledgment (the echo of functionCode/address/value).
The event record triggered by a switch write draws on the wall clock and is
modelled separately by `registerEvent`. -/
def FC06 (s : DeviceState) (address value : ℕ) : DeviceState × Except ModbusError Unit :=
  if address = 1 then
    if value < 256 then
      (SetState s (value != 0) value, Except.ok ())
    else
      (s, Except.error ModbusError.ILLEGAL_DATA_VALUE)
  else if address = 2 then
    ({ s with configFlags := value &&& CONF_MASK, eepromFlags := value &&& CONF_MASK },
      Except.ok ())
  else if address = 9 then
    if value = 0 then
      ({ s with accumulatedWatts := 0 }, Except.ok ())
    else
      (s, Except.error ModbusError.ILLEGAL_DATA_VALUE)
  else if address = MAXWORD - 1 then
    ({ s with aoAmps := value, eepromAoAmps := value }, Except.ok ())
  else if address = MAXWORD then
    ({ s with aoCycles := value, eepromAoCycles := value }, Except.ok ())
  else
    (s, Except.error ModbusError.ILLEGAL_DATA_ADDRESS)

/-- The Modbus flags register as computed at boot in `setup()` for this build:
runtime-toggleable low bit from the persisted configuration flags, feature
bits for power meter, Modbus server and timers compiled in (telnet and fauxmo
compiled out). -/
def bootShowFlags (cf : ℕ) : ℕ :=
  (cf &&& CONF_MASK) ||| CONF_HAS_POWER ||| CONF_HAS_MODBUS ||| CONF_TIMERS

/-- A concrete just-booted device state on a first-ever boot (everything
zeroed, all timer slots default-constructed). -/
def state0 : DeviceState :=
  { testschalter := false
    dimValue := 0
    showFlags := bootShowFlags 0
    configFlags := 0
    upTime := ⟨0, 0, 0, 0⟩
    stateTime := ⟨0, 0, 0, 0⟩
    onTime := ⟨0, 0, 0, 0⟩
    meterBytes := List.replicate 28 0
    timers := List.replicate NUM_TIMERS default
    events := []
    aoAmps := 0
    aoCycles := 0
    aoCount := 0
    accumulatedWatts := 0
    eepromFlags := 0
    eepromTimerBytes := List.replicate 64 0
    eepromAoAmps := 0
    eepromAoCycles := 0 }

/-- C1: for every FC03 read with address ≥ 1, words ≥ 1,
address+words-1 ≤ MAXWORD and words < 126 the handler returns a normal
response whose data payload is exactly 2·words bytes and raises no error;
every request violating any clause yields ILLEGAL_DATA_ADDRESS. -/
theorem fc03_read_contract (s : DeviceState) (address words : ℕ) :
    (1 ≤ address ∧ 1 ≤ words ∧ address + words - 1 ≤ MAXWORD ∧ words < 126 →
      ∃ data, FC03 s address words = Except.ok data ∧ data.length = 2 * words) ∧
    (¬(1 ≤ address ∧ 1 ≤ words ∧ address + words - 1 ≤ MAXWORD ∧ words < 126) →
      FC03 s address words = Except.error ModbusError.ILLEGAL_DATA_ADDRESS) := by
  constructor
  · rintro ⟨h1, h2, h3, h4⟩
    have hcond : address ≠ 0 ∧ words ≠ 0 ∧ address + words - 1 ≤ MAXWORD ∧ words < 126 :=
      ⟨by omega, by omega, h3, h4⟩
    exact ⟨fc03Data s address words, by simp [FC03, hcond],
      fc03Data_length s words address h1 h3⟩
  · intro h
    have hcond : ¬(address ≠ 0 ∧ words ≠ 0 ∧ address + words - 1 ≤ MAXWORD ∧ words < 126) := by
      rintro ⟨a, b, c, d⟩
      exact h ⟨by omega, by omega, c, d⟩
    unfold FC03
    rw [if_neg hcond]

/-- Witness for C1 at concrete inputs: a valid 2-word read of a fresh device
succeeds with a 4-byte payload, and the request with address 0 is rejected. -/
theorem fc03_read_contract_witness :
    (∃ data, FC03 state0 1 2 = Except.ok data ∧ data.length = 2 * 2) ∧
    FC03 state0 0 1 = Except.error ModbusError.ILLEGAL_DATA_ADDRESS :=
  ⟨(fc03_read_contract state0 1 2).1 (by decide),
    (fc03_read_contract state0 0 1).2 (by decide)⟩

/-- C5: writing v < 256 to register 1 is acknowledged and a subsequent FC03
read of register 1 yields v when v ≠ 0 and 0 when v = 0; writing v ≥ 256
yields ILLEGAL_DATA_VALUE and leaves the whole state unchanged. -/
theorem fc06_switch_write_read_roundtrip (s : DeviceState) (v : ℕ) :
    (v < 256 →
      (FC06 s 1 v).2 = Except.ok () ∧
      FC03 (FC06 s 1 v).1 1 1 = Except.ok (word16Bytes (if v = 0 then 0 else v))) ∧
    (256 ≤ v →
      (FC06 s 1 v).2 = Except.error ModbusError.ILLEGAL_DATA_VALUE ∧
      (FC06 s 1 v).1 = s) := by
  constructor
  · intro hv
    have hcond : (1 : ℕ) ≠ 0 ∧ (1 : ℕ) ≠ 0 ∧ 1 + 1 - 1 ≤ MAXWORD ∧ (1 : ℕ) < 126 := by decide
    refine ⟨by simp [FC06, hv], ?_⟩
    simp only [FC06, if_pos rfl, if_pos hv, FC03, if_pos hcond]
    by_cases hv0 : v = 0
    · simp [hv0, fc03Data, fc03RegBytes, SetState]
    · simp [hv0, fc03Data, fc03RegBytes, SetState, Nat.mod_eq_of_lt hv]
  · intro hv
    have hv256 : ¬ v < 256 := by omega
    simp [FC06, hv256]

/-- Witness for C5 at concrete inputs: writing 7 reads back as 7; writing 300
is rejected and leaves the fresh state untouched. -/
theorem fc06_switch_write_read_roundtrip_witness :
    ((FC06 state0 1 7).2 = Except.ok () ∧
      FC03 (FC06 state0 1 7).1 1 1 = Except.ok (word16Bytes (if 7 = 0 then 0 else 7))) ∧
    ((FC06 state0 1 300).2 = Except.error ModbusError.ILLEGAL_DATA_VALUE ∧
      (FC06 state0 1 300).1 = state0) :=
  ⟨(fc06_switch_write_read_roundtrip state0 7).1 (by decide),
    (fc06_switch_write_read_roundtrip state0 300).2 (by decide)⟩

/-- C4 (amended): an FC06 write of v to register 2 persists only the low bit
(configFlags and the EEPROM flag word both become v AND 0x0001) and is
acknowledged unconditionally; however the flags word served by FC03 at
register 2 is the boot-computed `showFlags`, which the write does not touch,
so the read-back reflects the boot-time flags (feature bits 11..15 and the
boot-time low bit), not the newly persisted bit. -/
theorem fc06_flags_write_behavior (s : DeviceState) (v : ℕ) :
    (FC06 s 2 v).2 = Except.ok () ∧
    (FC06 s 2 v).1.configFlags = v &&& CONF_MASK ∧
    (FC06 s 2 v).1.eepromFlags = v &&& CONF_MASK ∧
    (FC06 s 2 v).1.showFlags = s.showFlags ∧
    FC03 (FC06 s 2 v).1 2 1 = Except.ok (word16Bytes s.showFlags) := by
  have hcond : (2 : ℕ) ≠ 0 ∧ (1 : ℕ) ≠ 0 ∧ 2 + 1 - 1 ≤ MAXWORD ∧ (1 : ℕ) < 126 := by decide
  refine ⟨by simp [FC06], by simp [FC06], by simp [FC06], by simp [FC06], ?_⟩
  simp only [FC06, if_neg (by decide : ¬ (2 : ℕ) = 1), if_pos rfl, FC03, if_pos hcond]
  simp [fc03Data, fc03RegBytes]

/-- Counterexample for C4 as stated: boot with flag bit 0 clear, then write
value 1 to register 2.  The write is acknowledged and persists bit 0 = 1,
but the flags word read back through FC03 is still 0xA800 (feature bits
only), whose bit 0 is 0, not the persisted 1. -/
theorem fc06_flags_readback_counterexample :
    (FC06 state0 2 1).2 = Except.ok () ∧
    (FC06 state0 2 1).1.eepromFlags = 1 ∧
    FC03 (FC06 state0 2 1).1 2 1 = Except.ok [0xA8, 0x00] ∧
    ¬ ((0x00 : ℕ) &&& 1 = 1 &&& 1) := by decide

/-- One register word of an FC10 timer write: odd addresses carry
{activeDays, onOff} (activeDays accepted as-is, onOff masked to its low bit
in memory), even addresses carry {hour, minute} (stored modulo 24 / 60 in
memory).  The EEPROM cells receive the raw request bytes `tim_temp.*`. -/
def fc10WriteWord (s : DeviceState) (a b1 b2 : ℕ) : DeviceState :=
  if a % 2 = 1 then
    { s with
      timers := s.timers.set ((a - 23) / 2)
        { s.timers.getD ((a - 23) / 2) default with activeDays := b1, onOff := b2 &&& ONMASK }
      eepromTimerBytes :=
        (s.eepromTimerBytes.set ((a - 23) / 2 * 4) b1).set ((a - 23) / 2 * 4 + 1) b2 }
  else
    { s with
      timers := s.timers.set ((a - 23) / 2)
        { s.timers.getD ((a - 23) / 2) default with hour := b1 % 24, minute := b2 % 60 }
      eepromTimerBytes :=
        (s.eepromTimerBytes.set ((a - 23) / 2 * 4 + 2) b1).set ((a - 23) / 2 * 4 + 3) b2 }

/-- The FC10 write loop over the delivered value words: two request bytes per
register, registers `a`, `a+1`, …. -/
def fc10Write : DeviceState → ℕ → ℕ → List ℕ → DeviceState
  | s, _, 0, _ => s
  | s, a, w + 1, data =>
      fc10Write (fc10WriteWord s a (data.getD 0 0) (data.getD 1 0)) (a + 1) w (data.drop 2)

/-- FC10, the write-multiple-holding-registers handler (timers only):
validation exactly as in the code (`addr >= 23 && (addr + words) <= 54 && words`),
then the write loop and an {addr, words} echo, or ILLEGAL_DATA_ADDRESS. -/
def FC10 (s : DeviceState) (addr words : ℕ) (data : List ℕ) :
    DeviceState × Except ModbusError (ℕ × ℕ) :=
  if 23 ≤ addr ∧ addr + words ≤ 54 ∧ words ≠ 0 then
    (fc10Write s addr words data, Except.ok (addr, words))
  else
    (s, Except.error ModbusError.ILLEGAL_DATA_ADDRESS)

/-- The in-memory timer-table invariant: every slot's hour is below 24 and
minute below 60. -/
def timersInv (l : List Timer_t) : Prop := ∀ t ∈ l, t.hour < 24 ∧ t.minute < 60

instance decTimersInv (l : List Timer_t) : Decidable (timersInv l) :=
  inferInstanceAs (Decidable (∀ t ∈ l, t.hour < 24 ∧ t.minute < 60))

lemma getD_mem_prop {α : Type} (P : α → Prop) (l : List α) (i : ℕ) (d : α)
    (h : ∀ x ∈ l, P x) (hd : P d) : P (l.getD i d) := by
  rcases Nat.lt_or_ge i l.length with hi | hi
  · rw [List.getD_eq_getElem l d hi]
    exact h _ (List.getElem_mem hi)
  · rw [List.getD_eq_default l d hi]
    exact hd

lemma timersInv_set (l : List Timer_t) (i : ℕ) (t : Timer_t)
    (h : timersInv l) (ht : t.hour < 24 ∧ t.minute < 60) : timersInv (l.set i t) := by
  intro x hx
  rcases List.mem_or_eq_of_mem_set hx with h1 | h1
  · exact h x h1
  · rw [h1]; exact ht

lemma fc10WriteWord_inv (s : DeviceState) (a b1 b2 : ℕ) (h : timersInv s.timers) :
    timersInv (fc10WriteWord s a b1 b2).timers := by
  have hget := getD_mem_prop (fun t => t.hour < 24 ∧ t.minute < 60)
    s.timers ((a - 23) / 2) default h (by decide)
  unfold fc10WriteWord
  split
  · exact timersInv_set _ _ _ h ⟨hget.1, hget.2⟩
  · exact timersInv_set _ _ _ h
      ⟨Nat.mod_lt _ (by norm_num), Nat.mod_lt _ (by norm_num)⟩

lemma fc10Write_inv (w : ℕ) :
    ∀ s a data, timersInv s.timers → timersInv (fc10Write s a w data).timers := by
  induction w with
  | zero => intro s a data h; exact h
  | succ n ih =>
      intro s a data h
      exact ih _ _ _ (fc10WriteWord_inv _ _ _ _ h)

lemma FC10_inv (s : DeviceState) (addr words : ℕ) (data : List ℕ)
    (h : timersInv s.timers) : timersInv ((FC10 s addr words data).1).timers := by
  unfold FC10
  split
  · exact fc10Write_inv _ _ _ _ h
  · exact h

/-- C6: FC10 stores hours modulo 24 and minutes modulo 60 — concretely,
writing hour=25, minute=61 stores hour=1, minute=1 — and every slot keeps
hour < 24 and minute < 60 across any single FC10 call and any sequence of
FC10 calls (starting from a table satisfying the invariant, as the
default-constructed table does). -/
theorem fc10_timer_normalization :
    (∀ s addr words data, timersInv s.timers →
      timersInv ((FC10 s addr words data).1).timers) ∧
    (∀ (s : DeviceState) (reqs : List (ℕ × ℕ × List ℕ)), timersInv s.timers →
      timersInv ((reqs.foldl (fun st r => (FC10 st r.1 r.2.1 r.2.2).1) s).timers)) ∧
    ((FC10 state0 24 1 [25, 61]).1.timers.getD 0 default).hour = 1 ∧
    ((FC10 state0 24 1 [25, 61]).1.timers.getD 0 default).minute = 1 := by
  refine ⟨FC10_inv, ?_, by decide, by decide⟩
  intro s reqs
  induction reqs generalizing s with
  | nil => intro h; exact h
  | cons r rs ih => intro h; exact ih _ (FC10_inv _ _ _ _ h)

/-- Witness for C6: the fresh device's timer table satisfies the invariant,
and it still does after an FC10 write of out-of-range hour/minute values. -/
theorem fc10_timer_normalization_witness :
    timersInv ((FC10 state0 24 1 [25, 61]).1).timers :=
  fc10_timer_normalization.1 state0 24 1 [25, 61] (by decide)

/-- C3: the code rejects FC10 requests that the claim says must succeed.
Register 54 — the hour/minute word of timer slot 16 — can never be written:
the range check is `(addr + words) <= 54`, excluding address 54 from every
request, although the address lies in the timer region [23, 54] served by
FC03 (and the repository's own client writes timer 16 at addr=53, words=2,
the first input below).  A one-word write at 53 passes, showing the
boundary. -/
theorem fc10_register54_rejected :
    FC10 state0 53 2 [0x81, 1, 7, 30] =
      (state0, Except.error ModbusError.ILLEGAL_DATA_ADDRESS) ∧
    FC10 state0 54 1 [7, 30] =
      (state0, Except.error ModbusError.ILLEGAL_DATA_ADDRESS) ∧
    (FC10 state0 53 1 [0x81, 1]).2 = Except.ok (53, 1) := by decide

/-- C7: the EEPROM bytes persisted by FC10 are the raw request bytes, not the
normalized in-memory values.  Writing hour=25, minute=61 stores 1 and 1 in
memory but persists 25 and 61; writing onOff=3 stores 1 in memory but
persists 3. -/
theorem fc10_persists_raw_bytes :
    ((FC10 state0 24 1 [25, 61]).1.timers.getD 0 default).hour = 1 ∧
    ((FC10 state0 24 1 [25, 61]).1.timers.getD 0 default).minute = 1 ∧
    (FC10 state0 24 1 [25, 61]).1.eepromTimerBytes.getD 2 0 = 25 ∧
    (FC10 state0 24 1 [25, 61]).1.eepromTimerBytes.getD 3 0 = 61 ∧
    ((FC10 state0 23 1 [129, 3]).1.timers.getD 0 default).onOff = 1 ∧
    (FC10 state0 23 1 [129, 3]).1.eepromTimerBytes.getD 1 0 = 3 := by decide

/-- One auto-off evaluation, run per power-meter sampling tick (`loop()`,
auto-power-off block).  `current` is the freshly sampled current in amperes
(`measures[CURRENT].measured`); the returned flag records whether the switch
was forced off on this tick (the `registerEvent(AUTOOFF)` call, whose packed
word additionally draws on the wall clock and is modelled by
`registerEvent`). -/
def autoOffTick (s : DeviceState) (current : ℚ) : DeviceState × Bool :=
  if s.testschalter = true ∧ s.aoAmps ≠ 0 ∧ s.aoCycles ≠ 0 then
    if current < (s.aoAmps : ℚ) / 1000 then
      if s.aoCount ≥ s.aoCycles then
        ({ SetState s (!s.testschalter) 255 with aoCount := 0 }, true)
      else
        (if s.aoCount < s.aoCycles then { s with aoCount := s.aoCount + 1 } else s, false)
    else
      ({ s with aoCount := 0 }, false)
  else
    ({ s with aoCount := 0 }, false)

/-- A run of auto-off evaluations over a list of current samples; the second
component counts how many of the ticks fired. -/
def autoOffRun : DeviceState → List ℚ → DeviceState × ℕ
  | s, [] => (s, 0)
  | s, c :: cs =>
      ((autoOffRun (autoOffTick s c).1 cs).1,
        (if (autoOffTick s c).2 then 1 else 0) + (autoOffRun (autoOffTick s c).1 cs).2)

lemma autoOffTick_low_step (s : DeviceState) (c : ℚ)
    (hON : s.testschalter = true) (hA : s.aoAmps ≠ 0) (hC : s.aoCycles ≠ 0)
    (hlow : c < (s.aoAmps : ℚ) / 1000) (hcount : s.aoCount < s.aoCycles) :
    autoOffTick s c = ({ s with aoCount := s.aoCount + 1 }, false) := by
  unfold autoOffTick
  rw [if_pos ⟨hON, hA, hC⟩, if_pos hlow, if_neg (by omega), if_pos hcount]

lemma autoOffTick_fire_step (s : DeviceState) (c : ℚ)
    (hON : s.testschalter = true) (hA : s.aoAmps ≠ 0) (hC : s.aoCycles ≠ 0)
    (hlow : c < (s.aoAmps : ℚ) / 1000) (hcount : s.aoCount ≥ s.aoCycles) :
    autoOffTick s c = ({ SetState s (!s.testschalter) 255 with aoCount := 0 }, true) := by
  unfold autoOffTick
  rw [if_pos ⟨hON, hA, hC⟩, if_pos hlow, if_pos hcount]

lemma autoOffTick_high_reset (s : DeviceState) (c : ℚ)
    (hhigh : ¬ c < (s.aoAmps : ℚ) / 1000) :
    autoOffTick s c = ({ s with aoCount := 0 }, false) := by
  unfold autoOffTick
  by_cases h1 : s.testschalter = true ∧ s.aoAmps ≠ 0 ∧ s.aoCycles ≠ 0
  · rw [if_pos h1, if_neg hhigh]
  · rw [if_neg h1]

lemma autoOffRun_low (c : ℚ) : ∀ (k : ℕ) (s : DeviceState),
    s.testschalter = true → s.aoAmps ≠ 0 → s.aoCycles ≠ 0 →
    c < (s.aoAmps : ℚ) / 1000 → s.aoCount + k ≤ s.aoCycles →
    autoOffRun s (List.replicate k c) = ({ s with aoCount := s.aoCount + k }, 0) := by
  intro k
  induction k with
  | zero =>
      intro s hON hA hC hlow hk
      show (s, 0) = _
      rw [Nat.add_zero]
  | succ n ih =>
      intro s hON hA hC hlow hk
      have hstep := autoOffTick_low_step s c hON hA hC hlow (by omega)
      show ((autoOffRun (autoOffTick s c).1 _).1,
        (if (autoOffTick s c).2 then 1 else 0) + (autoOffRun (autoOffTick s c).1 _).2) = _
      rw [hstep]
      have hrec := ih { s with aoCount := s.aoCount + 1 } hON hA hC hlow (by simp; omega)
      simp only [hrec]
      rw [show s.aoCount + 1 + n = s.aoCount + (n + 1) by omega]
      simp

lemma autoOffRun_off (cs : List ℚ) : ∀ s : DeviceState, s.testschalter = false →
    (autoOffRun s cs).2 = 0 ∧ (autoOffRun s cs).1.testschalter = false := by
  induction cs with
  | nil => intro s h; exact ⟨rfl, h⟩
  | cons c rest ih =>
      intro s h
      have hstep : autoOffTick s c = ({ s with aoCount := 0 }, false) := by
        unfold autoOffTick
        rw [if_neg (by simp [h])]
      have hrec := ih { s with aoCount := 0 } h
      constructor
      · show (if (autoOffTick s c).2 then 1 else 0) + (autoOffRun (autoOffTick s c).1 rest).2 = 0
        rw [hstep]
        simpa using hrec.1
      · show (autoOffRun (autoOffTick s c).1 rest).1.testschalter = false
        rw [hstep]
        exact hrec.2

lemma autoOffRun_append_fst (l1 l2 : List ℚ) : ∀ s : DeviceState,
    (autoOffRun s (l1 ++ l2)).1 = (autoOffRun (autoOffRun s l1).1 l2).1 := by
  induction l1 with
  | nil => intro s; rfl
  | cons c rest ih => intro s; exact ih (autoOffTick s c).1

lemma autoOffRun_append_snd (l1 l2 : List ℚ) : ∀ s : DeviceState,
    (autoOffRun s (l1 ++ l2)).2 =
      (autoOffRun s l1).2 + (autoOffRun (autoOffRun s l1).1 l2).2 := by
  induction l1 with
  | nil => intro s; exact (Nat.zero_add _).symm
  | cons c rest ih =>
      intro s
      show (if (autoOffTick s c).2 then 1 else 0) +
          (autoOffRun (autoOffTick s c).1 (rest ++ l2)).2 =
        ((if (autoOffTick s c).2 then 1 else 0) + (autoOffRun (autoOffTick s c).1 rest).2) +
          (autoOffRun (autoOffRun (autoOffTick s c).1 rest).1 l2).2
      rw [ih (autoOffTick s c).1]
      omega

/-- C2 (amended): from a running state with nonzero threshold and cycle
count and a zeroed consecutive-low counter, the auto-off controller fires
exactly once after requiredCycles + 1 consecutive below-threshold samples
(the counter is first incremented requiredCycles times, then the next
below-threshold sample trips the pre-increment `aoCount >= aoCycles` check);
after the firing the switch is OFF and the counter is 0, and no further tick
fires.  For any k ≤ requiredCycles, k below-threshold samples leave the
switch ON with no firing and the counter at k, and a single at-or-above-
threshold sample then resets the counter to 0 with no firing for that run. -/
theorem autoOff_fires_after_cycles_plus_one (s : DeviceState) (c chigh : ℚ)
    (hON : s.testschalter = true) (hA : s.aoAmps ≠ 0) (hC : s.aoCycles ≠ 0)
    (h0 : s.aoCount = 0) (hlow : c < (s.aoAmps : ℚ) / 1000)
    (hhigh : ¬ chigh < (s.aoAmps : ℚ) / 1000) :
    (∀ k, k ≤ s.aoCycles →
      (autoOffRun s (List.replicate k c)).2 = 0 ∧
      (autoOffRun s (List.replicate k c)).1.testschalter = true ∧
      (autoOffRun s (List.replicate k c)).1.aoCount = k) ∧
    (∀ k, k ≤ s.aoCycles →
      (autoOffRun s (List.replicate k c ++ [chigh])).2 = 0 ∧
      (autoOffRun s (List.replicate k c ++ [chigh])).1.aoCount = 0 ∧
      (autoOffRun s (List.replicate k c ++ [chigh])).1.testschalter = true) ∧
    (∀ cs, (autoOffRun s (List.replicate (s.aoCycles + 1) c ++ cs)).2 = 1) ∧
    (autoOffRun s (List.replicate (s.aoCycles + 1) c)).1.testschalter = false ∧
    (autoOffRun s (List.replicate (s.aoCycles + 1) c)).1.aoCount = 0 := by
  have hklow : ∀ k, k ≤ s.aoCycles →
      autoOffRun s (List.replicate k c) = ({ s with aoCount := k }, 0) := by
    intro k hk
    have := autoOffRun_low c k s hON hA hC hlow (by omega)
    rwa [h0, Nat.zero_add] at this
  have hfire1 : (autoOffRun s (List.replicate (s.aoCycles + 1) c)).1 =
      { SetState s (!s.testschalter) 255 with aoCount := 0 } := by
    rw [List.replicate_succ' s.aoCycles c, autoOffRun_append_fst, hklow s.aoCycles le_rfl]
    show (autoOffTick { s with aoCount := s.aoCycles } c).1 = _
    rw [autoOffTick_fire_step { s with aoCount := s.aoCycles } c hON hA hC hlow le_rfl]
    rfl
  have hfire2 : (autoOffRun s (List.replicate (s.aoCycles + 1) c)).2 = 1 := by
    rw [List.replicate_succ' s.aoCycles c, autoOffRun_append_snd, hklow s.aoCycles le_rfl]
    show 0 + ((if (autoOffTick { s with aoCount := s.aoCycles } c).2 then 1 else 0) + 0) = 1
    rw [autoOffTick_fire_step { s with aoCount := s.aoCycles } c hON hA hC hlow le_rfl]
    rfl
  refine ⟨?_, ?_, ?_, ?_, ?_⟩
  · intro k hk
    rw [hklow k hk]
    exact ⟨rfl, hON, rfl⟩
  · intro k hk
    have e1 : (autoOffRun s (List.replicate k c ++ [chigh])).1 = { s with aoCount := 0 } := by
      rw [autoOffRun_append_fst, hklow k hk]
      show (autoOffTick { s with aoCount := k } chigh).1 = _
      rw [autoOffTick_high_reset { s with aoCount := k } chigh hhigh]
    have e2 : (autoOffRun s (List.replicate k c ++ [chigh])).2 = 0 := by
      rw [autoOffRun_append_snd, hklow k hk]
      show 0 + ((if (autoOffTick { s with aoCount := k } chigh).2 then 1 else 0) + 0) = 0
      rw [autoOffTick_high_reset { s with aoCount := k } chigh hhigh]
      rfl
    refine ⟨e2, ?_, ?_⟩
    · rw [e1]
    · rw [e1]; exact hON
  · intro cs
    rw [autoOffRun_append_snd, hfire2, hfire1]
    have hoff := autoOffRun_off cs { SetState s (!s.testschalter) 255 with aoCount := 0 }
      (by simp [SetState, hON])
    omega
  · rw [hfire1]; simp [SetState, hON]
  · rw [hfire1]

/-- A powered-on state with auto-off threshold 1000 mA and cycle count 2. -/
def aoRunState : DeviceState :=
  { state0 with testschalter := true, aoAmps := 1000, aoCycles := 2 }

/-- Witness for C2 at a concrete device: threshold 1000 mA, 2 required
cycles, samples of 0 A (below) and 5 A (above).  Three low samples fire
exactly once and leave the switch OFF with counter 0; two low samples then
a high one never fire and reset the counter. -/
theorem autoOff_fires_witness :
    ((autoOffRun aoRunState (List.replicate (aoRunState.aoCycles + 1) 0)).1.testschalter
        = false ∧
      (autoOffRun aoRunState (List.replicate (aoRunState.aoCycles + 1) 0)).1.aoCount = 0) ∧
    ((autoOffRun aoRunState (List.replicate 2 0 ++ [5])).2 = 0 ∧
      (autoOffRun aoRunState (List.replicate 2 0 ++ [5])).1.aoCount = 0) ∧
    (∀ cs, (autoOffRun aoRunState (List.replicate (aoRunState.aoCycles + 1) 0 ++ cs)).2 = 1) := by
  have h := autoOff_fires_after_cycles_plus_one aoRunState 0 5 rfl (by decide) (by decide) rfl
    (by norm_num [aoRunState, state0]) (by norm_num [aoRunState, state0])
  exact ⟨⟨h.2.2.2.1, h.2.2.2.2⟩, ⟨(h.2.1 2 (by decide)).1, (h.2.1 2 (by decide)).2.1⟩, h.2.2.1⟩

/-- A powered-on state with auto-off threshold 1000 mA and cycle count 1. -/
def aoOneState : DeviceState :=
  { state0 with testschalter := true, aoAmps := 1000, aoCycles := 1 }

/-- Counterexample for C2 as stated: with requiredCycles = 1, after exactly
one below-threshold sample (0 A against a 1000 mA threshold) the controller
has not fired — the switch is still ON and the counter is 1, not 0. -/
theorem autoOff_exact_cycles_counterexample :
    (autoOffTick aoOneState 0).2 = false ∧
    (autoOffTick aoOneState 0).1.testschalter = true ∧
    (autoOffTick aoOneState 0).1.aoCount = 1 := by
  have hstep := autoOffTick_low_step aoOneState 0 rfl (by decide) (by decide)
    (by norm_num [aoOneState, state0]) (by decide)
  rw [hstep]
  exact ⟨rfl, rfl, rfl⟩

/-- `RingBuf::operator[]`: the element at `index`, or 0 outside the used
area (`index >= 0 && index < size()`; at size 0 the C++ `size() - 1` wraps
to a huge `size_t`, which the bounds check also sends to the 0 default, as
does truncated subtraction here). -/
def rbGet (l : List ℕ) (i : ℕ) : ℕ := l.getD i 0

/-- `RingBuf::push_back` for the non-preserving events buffer of capacity
MAXEVENT: on zero remaining capacity the oldest element is dropped
(`moveFront(1)`), then the element is appended. -/
def rbPushBack (l : List ℕ) (c : ℕ) : List ℕ :=
  if MAXEVENT - l.length = 0 then l.drop 1 ++ [c] else l ++ [c]

/-- The duplicate-suppression core of `registerEvent`: push the packed word
unless it equals the most recently stored word. -/
def registerEventWord (l : List ℕ) (w : ℕ) : List ℕ :=
  if rbGet l (l.length - 1) ≠ w then rbPushBack l w else l

/-- The packed 16-bit event word: 5-bit type (bits 11-15), 5-bit hi field
(bits 6-10), 6-bit lo field (bits 0-5); `hi`/`lo` are the day/month or
hour/minute values taken from the wall clock in `registerEvent`. -/
def packEvent (ev hi lo : ℕ) : ℕ :=
  ((ev &&& 0x1F) <<< 11) ||| ((hi &&& 0x1F) <<< 6) ||| (lo &&& 0x3F)

/-- `registerEvent`: pack the event word and append it with duplicate
suppression. -/
def registerEvent (l : List ℕ) (ev hi lo : ℕ) : List ℕ :=
  registerEventWord l (packEvent ev hi lo)

lemma rbPushBack_last (l : List ℕ) (w : ℕ) :
    rbGet (rbPushBack l w) ((rbPushBack l w).length - 1) = w := by
  unfold rbPushBack
  split
  · rw [show l.drop 1 ++ [w] = (l.drop 1 ++ [w]) from rfl]
    simp [rbGet, List.getD_append_right]
  · simp [rbGet, List.getD_append_right]

/-- C9: the event log never stores two consecutive identical records —
appending a word equal to the most recently stored one is a no-op, and a
second append of the same (type, hi, lo) record right after a first one
leaves the buffer (hence its size) unchanged. -/
theorem eventlog_duplicate_suppression (l : List ℕ) (ev hi lo : ℕ) :
    (rbGet l (l.length - 1) = packEvent ev hi lo → registerEvent l ev hi lo = l) ∧
    registerEvent (registerEvent l ev hi lo) ev hi lo = registerEvent l ev hi lo := by
  constructor
  · intro h
    unfold registerEvent registerEventWord
    rw [if_neg (by simpa using h)]
  · by_cases h : rbGet l (l.length - 1) = packEvent ev hi lo
    · have hid : registerEvent l ev hi lo = l := by
        unfold registerEvent registerEventWord
        rw [if_neg (by simpa using h)]
      rw [hid]
      exact hid
    · have hpush : registerEvent l ev hi lo = rbPushBack l (packEvent ev hi lo) := by
        unfold registerEvent registerEventWord
        rw [if_pos h]
      rw [hpush]
      unfold registerEvent registerEventWord
      rw [if_neg (by simpa using rbPushBack_last l (packEvent ev hi lo))]

/-- Witness for C9: a buffer whose most recent word is the packed
MODBUS_ON record at 00:00 absorbs a repeated append unchanged. -/
theorem eventlog_duplicate_suppression_witness :
    registerEvent [14336] 7 0 0 = [14336] :=
  (eventlog_duplicate_suppression [14336] 7 0 0).1 (by decide)

/-- A timer slot is due: active bit set, current weekday bit set in its day
mask, and its hour:minute equal the current time. -/
def timerDue (t : Timer_t) (cWday cHour cMinute : ℕ) : Prop :=
  t.activeDays &&& ACTIVEMASK ≠ 0 ∧ t.activeDays &&& cWday ≠ 0 ∧
    t.hour = cHour ∧ t.minute = cMinute

instance (t : Timer_t) (cWday cHour cMinute : ℕ) :
    Decidable (timerDue t cWday cHour cMinute) :=
  inferInstanceAs (Decidable (_ ∧ _ ∧ _ ∧ _))

/-- A due timer slot actually switches: its desired action differs from the
current switch state (`timers[i].onOff != cOnOff`). -/
def timerDueFires (t : Timer_t) (cWday cHour cMinute cOnOff : ℕ) : Prop :=
  timerDue t cWday cHour cMinute ∧ t.onOff ≠ cOnOff

instance (t : Timer_t) (cWday cHour cMinute cOnOff : ℕ) :
    Decidable (timerDueFires t cWday cHour cMinute cOnOff) :=
  inferInstanceAs (Decidable (_ ∧ _))

/-- The timer evaluation loop over a list of slot indices: the first index
whose slot is due and whose action differs from the current state performs
the switch transition and stops the scan (`break`); all other slots are
skipped and the scan continues. -/
def timerScan (s : DeviceState) (cWday cHour cMinute cOnOff : ℕ) :
    List ℕ → DeviceState × Option ℕ
  | [] => (s, none)
  | i :: rest =>
      if timerDueFires (s.timers.getD i default) cWday cHour cMinute cOnOff then
        (SetState s (!s.testschalter) 255, some i)
      else
        timerScan s cWday cHour cMinute cOnOff rest

/-- One timer-table evaluation tick (`loop()`, timer block): scan slots
0..15 in ascending order against the wall-clock weekday bit, hour and
minute, with `cOnOff = Testschalter ? ONMASK : 0`. -/
def timerTick (s : DeviceState) (cWday cHour cMinute : ℕ) : DeviceState × Option ℕ :=
  timerScan s cWday cHour cMinute (if s.testschalter then ONMASK else 0)
    (List.range NUM_TIMERS)

/-- Slot `i` of the table is due and differs from the current switch state. -/
def timerFireCond (s : DeviceState) (cWday cHour cMinute : ℕ) (i : ℕ) : Prop :=
  timerDueFires (s.timers.getD i default) cWday cHour cMinute
    (if s.testschalter then ONMASK else 0)

instance (s : DeviceState) (cWday cHour cMinute i : ℕ) :
    Decidable (timerFireCond s cWday cHour cMinute i) :=
  inferInstanceAs (Decidable (timerDueFires _ _ _ _ _))

lemma timerScan_none_spec (s : DeviceState) (cW cH cM cO : ℕ) : ∀ l : List ℕ,
    (timerScan s cW cH cM cO l).2 = none →
      (timerScan s cW cH cM cO l).1 = s ∧
      ∀ j ∈ l, ¬ timerDueFires (s.timers.getD j default) cW cH cM cO := by
  intro l
  induction l with
  | nil => intro _; exact ⟨rfl, by simp⟩
  | cons i rest ih =>
      intro h
      have hstep : timerScan s cW cH cM cO (i :: rest) =
          if timerDueFires (s.timers.getD i default) cW cH cM cO then
            (SetState s (!s.testschalter) 255, some i)
          else timerScan s cW cH cM cO rest := rfl
      by_cases hc : timerDueFires (s.timers.getD i default) cW cH cM cO
      · have he : timerScan s cW cH cM cO (i :: rest) =
            (SetState s (!s.testschalter) 255, some i) := by
          rw [hstep, if_pos hc]
        rw [he] at h
        exact absurd h (by simp)
      · have he : timerScan s cW cH cM cO (i :: rest) = timerScan s cW cH cM cO rest := by
          rw [hstep, if_neg hc]
        rw [he] at h ⊢
        obtain ⟨h1, h2⟩ := ih h
        refine ⟨h1, ?_⟩
        intro j hj
        rcases List.mem_cons.mp hj with hj | hj
        · rw [hj]; exact hc
        · exact h2 j hj

lemma timerScan_some_spec (s : DeviceState) (cW cH cM cO : ℕ) : ∀ (l : List ℕ) (i : ℕ),
    (timerScan s cW cH cM cO l).2 = some i →
      (timerScan s cW cH cM cO l).1 = SetState s (!s.testschalter) 255 ∧
      timerDueFires (s.timers.getD i default) cW cH cM cO ∧
      ∃ l1 l2, l = l1 ++ i :: l2 ∧
        ∀ j ∈ l1, ¬ timerDueFires (s.timers.getD j default) cW cH cM cO := by
  intro l
  induction l with
  | nil => intro i h; exact absurd h (by simp [timerScan])
  | cons a rest ih =>
      intro i h
      have hstep : timerScan s cW cH cM cO (a :: rest) =
          if timerDueFires (s.timers.getD a default) cW cH cM cO then
            (SetState s (!s.testschalter) 255, some a)
          else timerScan s cW cH cM cO rest := rfl
      by_cases hc : timerDueFires (s.timers.getD a default) cW cH cM cO
      · have he : timerScan s cW cH cM cO (a :: rest) =
            (SetState s (!s.testschalter) 255, some a) := by
          rw [hstep, if_pos hc]
        rw [he] at h ⊢
        have hai : a = i := by simpa using h
        refine ⟨rfl, ?_, [], rest, ?_, by simp⟩
        · rw [← hai]; exact hc
        · simp [hai]
      · have he : timerScan s cW cH cM cO (a :: rest) = timerScan s cW cH cM cO rest := by
          rw [hstep, if_neg hc]
        rw [he] at h ⊢
        obtain ⟨h1, h2, l1, l2, hsplit, hl1⟩ := ih i h
        refine ⟨h1, h2, a :: l1, l2, by rw [List.cons_append, hsplit], ?_⟩
        intro j hj
        rcases List.mem_cons.mp hj with hj | hj
        · rw [hj]; exact hc
        · exact hl1 j hj

lemma range_split_least {n i : ℕ} (l1 l2 : List ℕ) (h : List.range n = l1 ++ i :: l2) :
    i < n ∧ i = l1.length ∧ ∀ j < i, j ∈ l1 := by
  have hlen : n = l1.length + (l2.length + 1) := by
    have hl := congrArg List.length h
    simp at hl
    omega
  have hl1n : l1.length < n := by omega
  have hi : i = l1.length := by
    have hg := congrArg (fun l => l.getD l1.length 0) h
    simp only at hg
    rw [List.getD_eq_getElem _ 0 (by simpa using hl1n), List.getElem_range] at hg
    rw [List.getD_append_right l1 (i :: l2) 0 l1.length le_rfl] at hg
    simp at hg
    omega
  refine ⟨by omega, hi, ?_⟩
  intro j hj
  have hjl : j < l1.length := by omega
  have hg := congrArg (fun l => l.getD j 0) h
  simp only at hg
  rw [List.getD_eq_getElem _ 0 (by simp; omega), List.getElem_range] at hg
  rw [List.getD_append l1 (i :: l2) 0 j hjl] at hg
  rw [List.getD_eq_getElem _ 0 hjl] at hg
  rw [hg]
  exact List.getElem_mem hjl

/-- C8 (amended): one timer-table evaluation performs at most one switch
transition.  The scan returns no transition exactly when no slot is active,
day- and time-matching AND action-differing; when it returns a firing slot i,
slot i is the lowest-indexed such slot — slots that match the current time
but whose action already equals the switch state are skipped and the scan
continues past them; scanning stops only after a transition. -/
theorem timer_scan_first_difference_fires (s : DeviceState) (cWday cHour cMinute : ℕ) :
    ((timerTick s cWday cHour cMinute).1 = s ∨
      (timerTick s cWday cHour cMinute).1 = SetState s (!s.testschalter) 255) ∧
    ((timerTick s cWday cHour cMinute).2 = none →
      (timerTick s cWday cHour cMinute).1 = s ∧
      ∀ j < NUM_TIMERS, ¬ timerFireCond s cWday cHour cMinute j) ∧
    (∀ i, (timerTick s cWday cHour cMinute).2 = some i →
      (timerTick s cWday cHour cMinute).1 = SetState s (!s.testschalter) 255 ∧
      i < NUM_TIMERS ∧ timerFireCond s cWday cHour cMinute i ∧
      ∀ j < i, ¬ timerFireCond s cWday cHour cMinute j) := by
  have hnone : (timerTick s cWday cHour cMinute).2 = none →
      (timerTick s cWday cHour cMinute).1 = s ∧
      ∀ j < NUM_TIMERS, ¬ timerFireCond s cWday cHour cMinute j := by
    intro h
    obtain ⟨h1, h2⟩ := timerScan_none_spec s cWday cHour cMinute _ (List.range NUM_TIMERS) h
    exact ⟨h1, fun j hj => h2 j (List.mem_range.mpr hj)⟩
  have hsome : ∀ i, (timerTick s cWday cHour cMinute).2 = some i →
      (timerTick s cWday cHour cMinute).1 = SetState s (!s.testschalter) 255 ∧
      i < NUM_TIMERS ∧ timerFireCond s cWday cHour cMinute i ∧
      ∀ j < i, ¬ timerFireCond s cWday cHour cMinute j := by
    intro i h
    obtain ⟨h1, h2, l1, l2, hsplit, hl1⟩ :=
      timerScan_some_spec s cWday cHour cMinute _ (List.range NUM_TIMERS) i h
    obtain ⟨hin, _, hbefore⟩ := range_split_least l1 l2 hsplit
    exact ⟨h1, hin, h2, fun j hj => hl1 j (hbefore j hj)⟩
  refine ⟨?_, hnone, hsome⟩
  cases hopt : (timerTick s cWday cHour cMinute).2 with
  | none => exact Or.inl (hnone hopt).1
  | some i => exact Or.inr (hsome i hopt).1

/-- A powered-on device whose timer slots 0 and 1 are both active on Sunday
at 7:00; slot 0 wants ON (matching the current ON state), slot 1 wants OFF. -/
def timerPairState : DeviceState :=
  { state0 with
    testschalter := true
    timers := ⟨0x81, 1, 7, 0⟩ :: ⟨0x81, 0, 7, 0⟩ :: List.replicate 14 default }

/-- Witness for C8: on the two-timer device the evaluation at Sunday 7:00
fires slot 1 (the lowest-indexed slot whose action differs), and on the
fresh device (no active timers) it fires nothing. -/
theorem timer_scan_first_difference_witness :
    ((timerTick timerPairState 1 7 0).1 =
        SetState timerPairState (!timerPairState.testschalter) 255 ∧
      1 < NUM_TIMERS ∧ timerFireCond timerPairState 1 7 0 1 ∧
      ∀ j < 1, ¬ timerFireCond timerPairState 1 7 0 j) ∧
    ((timerTick state0 1 7 0).1 = state0 ∧
      ∀ j < NUM_TIMERS, ¬ timerFireCond state0 1 7 0 j) :=
  ⟨(timer_scan_first_difference_fires timerPairState 1 7 0).2.2 1 (by decide),
    (timer_scan_first_difference_fires state0 1 7 0).2.1 (by decide)⟩

/-- Counterexample for C8 as stated: with the switch ON, slot 0 is active,
day-matching and time-matching (the first matching slot) but its action
equals the current state, so per the claim the scan stops there and nothing
fires; the code instead continues and fires slot 1, switching OFF. -/
theorem timer_first_match_counterexample :
    timerDue (timerPairState.timers.getD 0 default) 1 7 0 ∧
    (timerPairState.timers.getD 0 default).onOff =
      (if timerPairState.testschalter then ONMASK else 0) ∧
    (timerTick timerPairState 1 7 0).2 = some 1 ∧
    (timerTick timerPairState 1 7 0).1.testschalter = false := by decide

/-- A button click in `loop()`: toggle the switch with dim value 255. -/
def buttonClick (s : DeviceState) : DeviceState := SetState s (!s.testschalter) 255

lemma fc03_read_reg1 (s : DeviceState) (h : s.testschalter = true) :
    FC03 s 1 1 = Except.ok (word16Bytes s.dimValue) := by
  have hcond : (1 : ℕ) ≠ 0 ∧ (1 : ℕ) ≠ 0 ∧ 1 + 1 - 1 ≤ MAXWORD ∧ (1 : ℕ) < 126 := by decide
  unfold FC03
  rw [if_pos hcond]
  simp [fc03Data, fc03RegBytes, h]

lemma autoOffTick_fired_state (s : DeviceState) (c : ℚ) (h : (autoOffTick s c).2 = true) :
    (autoOffTick s c).1 = { SetState s (!s.testschalter) 255 with aoCount := 0 } := by
  by_cases h1 : s.testschalter = true ∧ s.aoAmps ≠ 0 ∧ s.aoCycles ≠ 0
  · by_cases h2 : c < (s.aoAmps : ℚ) / 1000
    · by_cases h3 : s.aoCount ≥ s.aoCycles
      · rw [autoOffTick_fire_step s c h1.1 h1.2.1 h1.2.2 h2 h3]
      · exfalso
        rw [autoOffTick_low_step s c h1.1 h1.2.1 h1.2.2 h2 (by omega)] at h
        simp at h
    · exfalso
      rw [autoOffTick_high_reset s c h2] at h
      simp at h
  · exfalso
    have he : autoOffTick s c = ({ s with aoCount := 0 }, false) := by
      unfold autoOffTick
      rw [if_neg h1]
    rw [he] at h
    simp at h

/-- C10: every switch transition from a non-Modbus source — a button click,
a timer firing, an auto-off trigger — sets the dim value to 255, so whenever
such a transition leaves the switch ON, an FC03 read of register 1 returns
255 regardless of any dim value previously written over Modbus. -/
theorem non_modbus_transitions_dim_255 (s : DeviceState) (cWday cHour cMinute : ℕ)
    (current : ℚ) (i : ℕ) :
    ((buttonClick s).dimValue = 255 ∧
      ((buttonClick s).testschalter = true →
        FC03 (buttonClick s) 1 1 = Except.ok (word16Bytes 255))) ∧
    ((timerTick s cWday cHour cMinute).2 = some i →
      (timerTick s cWday cHour cMinute).1.dimValue = 255 ∧
      ((timerTick s cWday cHour cMinute).1.testschalter = true →
        FC03 (timerTick s cWday cHour cMinute).1 1 1 = Except.ok (word16Bytes 255))) ∧
    ((autoOffTick s current).2 = true →
      (autoOffTick s current).1.dimValue = 255 ∧
      ((autoOffTick s current).1.testschalter = true →
        FC03 (autoOffTick s current).1 1 1 = Except.ok (word16Bytes 255))) := by
  have hread : ∀ s' : DeviceState, s'.dimValue = 255 → s'.testschalter = true →
      FC03 s' 1 1 = Except.ok (word16Bytes 255) := by
    intro s' hd ht
    rw [fc03_read_reg1 s' ht, hd]
  refine ⟨⟨rfl, fun ht => hread _ rfl ht⟩, ?_, ?_⟩
  · intro h
    have h1 : (timerTick s cWday cHour cMinute).1 = SetState s (!s.testschalter) 255 :=
      (timerScan_some_spec s cWday cHour cMinute _ (List.range NUM_TIMERS) i h).1
    have hd : (timerTick s cWday cHour cMinute).1.dimValue = 255 := by rw [h1]; rfl
    exact ⟨hd, fun ht => hread _ hd ht⟩
  · intro h
    have h1 := autoOffTick_fired_state s current h
    have hd : (autoOffTick s current).1.dimValue = 255 := by rw [h1]; rfl
    exact ⟨hd, fun ht => hread _ hd ht⟩

/-- A switched-off device whose timer slot 0 is active on Sunday 7:00 and
wants ON. -/
def timerOnState : DeviceState :=
  { state0 with timers := ⟨0x81, 1, 7, 0⟩ :: List.replicate 15 default }

/-- A powered-on device whose auto-off counter has already reached its
cycle count, so the next below-threshold sample fires. -/
def aoFireState : DeviceState :=
  { state0 with testschalter := true, aoAmps := 1000, aoCycles := 1, aoCount := 1 }

lemma aoFireState_fires : (autoOffTick aoFireState 0).2 = true := by
  rw [autoOffTick_fire_step aoFireState 0 rfl (by decide) (by decide)
    (by norm_num [aoFireState, state0]) (by decide)]

/-- Witness for C10: a button click on the fresh (OFF) device turns it ON and
register 1 reads 255; the ON-turning timer fires and register 1 reads 255;
the auto-off trigger sets dim 255. -/
theorem non_modbus_transitions_witness :
    FC03 (buttonClick state0) 1 1 = Except.ok (word16Bytes 255) ∧
    (timerTick timerOnState 1 7 0).1.dimValue = 255 ∧
    FC03 (timerTick timerOnState 1 7 0).1 1 1 = Except.ok (word16Bytes 255) ∧
    (autoOffTick aoFireState 0).1.dimValue = 255 := by
  have hb := (non_modbus_transitions_dim_255 state0 1 7 0 0 0).1
  have ht := (non_modbus_transitions_dim_255 timerOnState 1 7 0 0 0).2.1 (by decide)
  have ha := (non_modbus_transitions_dim_255 aoFireState 1 7 0 0 0).2.2 aoFireState_fires
  exact ⟨hb.2 rfl, ht.1, ht.2 (by decide), ha.1⟩

end Smartdose
